import Mathlib

/-!
Shallow embedding of the vehicle carbon-footprint estimator
(`src/vehicle_estimator.py`) and of the dashboard's result guard
(`streamlit_app/app.py`).  Python floats are modelled by exact rationals;
a Python method that can return a number, return `None`, or raise
`ZeroDivisionError` from its division is modelled by an explicit result
type.
-/

namespace CarbonEmission

/-- Outcome of one estimator method call: a numeric CO2 value, the `None`
return (no estimate), or a `ZeroDivisionError` raised by the division. -/
inductive EstimateResult where
  | value (co2 : ℚ)
  | unrated
  | zeroDivError
deriving DecidableEq, Repr

/-- The six fields stored by `VehicleEstimator.__init__`. -/
structure VehicleEstimator where
  vehicle_type : String
  fuel_type : String
  engine_size : ℚ
  fuel_economy : ℚ
  distance_traveled : ℚ
  vehicle_age : ℚ
deriving DecidableEq, Repr

/-- The `self.emission_factors` dict built in `__init__`. -/
def emission_factors : List (String × ℚ) :=
  [("Petrol", 2.31), ("Diesel", 2.68), ("CNG", 2.75), ("Electric", 0.0), ("Hybrid", 1.5)]

/-- `self.age_factor = 1 + (self.vehicle_age * 0.01)`, computed in `__init__`. -/
def age_factor (v : VehicleEstimator) : ℚ :=
  1 + v.vehicle_age * 0.01

/-- Python division: raises `ZeroDivisionError` (modelled as `none`) when the
denominator is zero, otherwise yields the exact quotient. -/
def pydiv (a b : ℚ) : Option ℚ :=
  if b = 0 then none else some (a / b)

/-- `VehicleEstimator.calculate_lifetime_emissions`: if the fuel type is a key
of the emission-factor dict, compute
`distance_traveled / fuel_economy * factor * age_factor`; otherwise return
`None`.  The division can raise `ZeroDivisionError`. -/
def calculate_lifetime_emissions (v : VehicleEstimator) : EstimateResult :=
  match emission_factors.lookup v.fuel_type with
  | some factor =>
      match pydiv v.distance_traveled v.fuel_economy with
      | some q => .value (q * factor * age_factor v)
      | none => .zeroDivError
  | none => .unrated

/-- `VehicleEstimator.calculate_next_trip_emissions`: guarded by
`fuel_type in emission_factors and distance_to_travel > 0`; inside the guard
it computes `distance_to_travel / fuel_economy * factor * age_factor`.
`fuel_available` is accepted but never used. -/
def calculate_next_trip_emissions (v : VehicleEstimator)
    (distance_to_travel fuel_available : ℚ) : EstimateResult :=
  match emission_factors.lookup v.fuel_type with
  | some factor =>
      if 0 < distance_to_travel then
        match pydiv distance_to_travel v.fuel_economy with
        | some q => .value (q * factor * age_factor v)
        | none => .zeroDivError
      else .unrated
  | none => .unrated

/-- The dashboard guard `if emissions:` in `app.py` (both the lifetime and
the trip handler): Python truthiness of the returned value.  `None` and the
float `0.0` are both falsy; a raised exception never reaches the guard, so it
also shows nothing. -/
def emissions_truthy : EstimateResult → Bool
  | .value co2 => decide (co2 ≠ 0)
  | .unrated => false
  | .zeroDivError => false

/-- Claim C2: for every profile whose fuel type is one of the five table keys
(with the constants Petrol 2.31, Diesel 2.68, CNG 2.75, Electric 0.0,
Hybrid 1.5) and whose fuel economy is non-zero, the lifetime result is exactly
`(distance_traveled / fuel_economy) * factor * (1 + vehicle_age * 0.01)`. -/
theorem C2_lifetime_formula (v : VehicleEstimator) (factor : ℚ)
    (hf : (v.fuel_type, factor) ∈
      [("Petrol", (2.31 : ℚ)), ("Diesel", 2.68), ("CNG", 2.75),
       ("Electric", 0.0), ("Hybrid", 1.5)])
    (he : v.fuel_economy ≠ 0) :
    calculate_lifetime_emissions v =
      .value (v.distance_traveled / v.fuel_economy * factor *
        (1 + v.vehicle_age * 0.01)) := by
  simp only [List.mem_cons, List.not_mem_nil, or_false, Prod.mk.injEq] at hf
  rcases hf with ⟨h1, h2⟩ | ⟨h1, h2⟩ | ⟨h1, h2⟩ | ⟨h1, h2⟩ | ⟨h1, h2⟩ <;>
    subst h2 <;>
    simp [calculate_lifetime_emissions, emission_factors, pydiv, age_factor,
      List.lookup, h1, he]

/-- Witness for C2 at the repository's own example profile. -/
theorem C2_lifetime_formula_witness :
    calculate_lifetime_emissions ⟨"Car", "Petrol", 1500, 15, 50000, 5⟩ =
      .value ((50000 : ℚ) / 15 * 2.31 * (1 + 5 * 0.01)) :=
  C2_lifetime_formula ⟨"Car", "Petrol", 1500, 15, 50000, 5⟩ 2.31
    (by simp) (by norm_num)

/-- Claim C3 counterexample: on the profile (Petrol, economy 15, distance
50000, age 5) the lifetime result is exactly 8085, which is not within one
decimal place of the claimed 8085.5. -/
theorem C3_counterexample :
    calculate_lifetime_emissions ⟨"Car", "Petrol", 1500, 15, 50000, 5⟩ =
      .value 8085 ∧
    ¬ |(8085 : ℚ) - 8085.5| ≤ 0.05 := by
  constructor
  · simp [calculate_lifetime_emissions, emission_factors, pydiv, age_factor,
      List.lookup]
    norm_num
  · rw [abs_le]
    push_neg
    intro h
    norm_num at h

/-- Claim C3 amended: for the profile (Petrol, economy 15, distance 50000,
age 5) the age factor is 1.05, the lifetime result is exactly 8085 kg, and a
trip of distance 100 yields exactly 16.17 kg. -/
theorem C3_concrete_scenario :
    age_factor ⟨"Car", "Petrol", 1500, 15, 50000, 5⟩ = 1.05 ∧
    calculate_lifetime_emissions ⟨"Car", "Petrol", 1500, 15, 50000, 5⟩ =
      .value 8085 ∧
    calculate_next_trip_emissions ⟨"Car", "Petrol", 1500, 15, 50000, 5⟩ 100 10 =
      .value 16.17 := by
  refine ⟨by norm_num [age_factor], ?_, ?_⟩
  · simp [calculate_lifetime_emissions, emission_factors, pydiv, age_factor,
      List.lookup]
    norm_num
  · simp [calculate_next_trip_emissions, emission_factors, pydiv, age_factor,
      List.lookup]
    norm_num

/-- Claim C4: the lifetime operation returns the `None` outcome exactly when
the fuel type is absent from the emission-factor table, and the trip operation
returns it exactly when the fuel type is absent or the requested distance is
non-positive. -/
theorem C4_unrated_conditions (v : VehicleEstimator) (d fa : ℚ) :
    (calculate_lifetime_emissions v = .unrated ↔
      emission_factors.lookup v.fuel_type = none) ∧
    (calculate_next_trip_emissions v d fa = .unrated ↔
      (emission_factors.lookup v.fuel_type = none ∨ d ≤ 0)) := by
  constructor
  · unfold calculate_lifetime_emissions
    cases h : emission_factors.lookup v.fuel_type with
    | none => simp
    | some factor => cases h2 : pydiv v.distance_traveled v.fuel_economy <;> simp
  · unfold calculate_next_trip_emissions
    cases h : emission_factors.lookup v.fuel_type with
    | none => simp
    | some factor =>
      by_cases hd : 0 < d
      · cases h2 : pydiv d v.fuel_economy <;> simp [hd, not_le.mpr hd]
      · simp [hd, le_of_not_lt hd]

/-- Claim C5: for fuel type Electric with non-zero fuel economy, the lifetime
result and every positive-distance trip result are exactly the numeric value
0, not the `None` outcome. -/
theorem C5_electric_zero (v : VehicleEstimator)
    (hft : v.fuel_type = "Electric") (he : v.fuel_economy ≠ 0) :
    calculate_lifetime_emissions v = .value 0 ∧
    ∀ d fa : ℚ, 0 < d → calculate_next_trip_emissions v d fa = .value 0 := by
  constructor
  · simp [calculate_lifetime_emissions, emission_factors, pydiv, age_factor,
      List.lookup, hft, he]
    norm_num
  · intro d fa hd
    simp [calculate_next_trip_emissions, emission_factors, pydiv, age_factor,
      List.lookup, hft, he, hd]
    norm_num

/-- Witness for C5 at a concrete Electric profile and trip. -/
theorem C5_electric_zero_witness :
    calculate_lifetime_emissions ⟨"Car", "Electric", 1500, 15, 50000, 5⟩ =
      .value 0 ∧
    calculate_next_trip_emissions ⟨"Car", "Electric", 1500, 15, 50000, 5⟩ 100 10 =
      .value 0 := by
  have h := C5_electric_zero ⟨"Car", "Electric", 1500, 15, 50000, 5⟩ rfl
    (by norm_num)
  exact ⟨h.1, h.2 100 10 (by norm_num)⟩

/-- Claim C1 counterexample: for the non-positive fuel economy -15 the code
does not signal any error; it returns the numeric value -8085. -/
theorem C1_counterexample :
    (-15 : ℚ) ≤ 0 ∧
    calculate_lifetime_emissions ⟨"Car", "Petrol", 1500, -15, 50000, 5⟩ =
      .value (-8085) := by
  constructor
  · norm_num
  · simp [calculate_lifetime_emissions, emission_factors, pydiv, age_factor,
      List.lookup]
    norm_num

/-- Claim C1 amended: the code performs no fuel-economy validation.  For a
fuel type in the table, a zero fuel economy makes both operations raise an
uncontrolled `ZeroDivisionError` from the division itself (no explicit
`DomainError` is ever constructed), and a negative fuel economy produces a
numeric result. -/
theorem C1_no_fuel_economy_guard (v : VehicleEstimator) (factor : ℚ)
    (hf : emission_factors.lookup v.fuel_type = some factor) :
    (v.fuel_economy = 0 →
      calculate_lifetime_emissions v = .zeroDivError ∧
      ∀ d fa : ℚ, 0 < d →
        calculate_next_trip_emissions v d fa = .zeroDivError) ∧
    (v.fuel_economy < 0 →
      ∃ q : ℚ, calculate_lifetime_emissions v = .value q) := by
  constructor
  · intro he
    refine ⟨?_, ?_⟩
    · simp [calculate_lifetime_emissions, hf, pydiv, he]
    · intro d fa hd
      simp [calculate_next_trip_emissions, hf, pydiv, he, hd]
  · intro he
    refine ⟨v.distance_traveled / v.fuel_economy * factor * age_factor v, ?_⟩
    simp [calculate_lifetime_emissions, hf, pydiv, ne_of_lt he]

/-- Witness for C1 amended at fuel economy 0 with fuel type Petrol. -/
theorem C1_no_fuel_economy_guard_witness :
    calculate_lifetime_emissions ⟨"Car", "Petrol", 1500, 0, 50000, 5⟩ =
      .zeroDivError :=
  ((C1_no_fuel_economy_guard ⟨"Car", "Petrol", 1500, 0, 50000, 5⟩ 2.31
    (by simp [emission_factors, List.lookup])).1 rfl).1

/-- Claim C6: the dashboard displays a result only when the returned value is
truthy, so a calculation returning exactly 0 takes the same no-display path
as the `None` outcome, for both handlers. -/
theorem C6_zero_hides_result (v : VehicleEstimator) (d fa : ℚ) :
    (calculate_lifetime_emissions v = .value 0 →
      emissions_truthy (calculate_lifetime_emissions v) =
        emissions_truthy .unrated) ∧
    (calculate_next_trip_emissions v d fa = .value 0 →
      emissions_truthy (calculate_next_trip_emissions v d fa) =
        emissions_truthy .unrated) := by
  constructor <;> intro h <;> rw [h] <;> simp [emissions_truthy]

/-- Witness for C6 at a concrete Electric profile, whose lifetime result is
the numeric value 0. -/
theorem C6_zero_hides_result_witness :
    emissions_truthy
      (calculate_lifetime_emissions ⟨"Car", "Electric", 1500, 15, 50000, 5⟩) =
      emissions_truthy .unrated :=
  (C6_zero_hides_result ⟨"Car", "Electric", 1500, 15, 50000, 5⟩ 100 10).1
    (by simp [calculate_lifetime_emissions, emission_factors, pydiv, age_factor,
        List.lookup]
        norm_num)

/-- Claim C7: both operations are independent of `vehicle_type`,
`engine_size` and (for trips) `fuel_available`: profiles equal on the other
fields give equal results for any two values of `fuel_available`. -/
theorem C7_inert_inputs (v1 v2 : VehicleEstimator) (d fa1 fa2 : ℚ)
    (hft : v1.fuel_type = v2.fuel_type)
    (he : v1.fuel_economy = v2.fuel_economy)
    (hd : v1.distance_traveled = v2.distance_traveled)
    (ha : v1.vehicle_age = v2.vehicle_age) :
    calculate_lifetime_emissions v1 = calculate_lifetime_emissions v2 ∧
    calculate_next_trip_emissions v1 d fa1 =
      calculate_next_trip_emissions v2 d fa2 := by
  constructor
  · unfold calculate_lifetime_emissions age_factor
    rw [hft, he, hd, ha]
  · unfold calculate_next_trip_emissions age_factor
    rw [hft, he, ha]

/-- Witness for C7: vehicle type Car vs Truck, engine 1500 vs 3000, fuel
available 10 vs 25, all other fields equal. -/
theorem C7_inert_inputs_witness :
    calculate_lifetime_emissions ⟨"Car", "Petrol", 1500, 15, 50000, 5⟩ =
      calculate_lifetime_emissions ⟨"Truck", "Petrol", 3000, 15, 50000, 5⟩ ∧
    calculate_next_trip_emissions ⟨"Car", "Petrol", 1500, 15, 50000, 5⟩ 100 10 =
      calculate_next_trip_emissions
        ⟨"Truck", "Petrol", 3000, 15, 50000, 5⟩ 100 25 :=
  C7_inert_inputs ⟨"Car", "Petrol", 1500, 15, 50000, 5⟩
    ⟨"Truck", "Petrol", 3000, 15, 50000, 5⟩ 100 10 25 rfl rfl rfl rfl

/-- Claim C8: the age factor equals 1 at age 0 and is strictly increasing in
the vehicle age. -/
theorem C8_age_factor_monotone (v : VehicleEstimator) (a1 a2 : ℚ) :
    age_factor {v with vehicle_age := 0} = 1 ∧
    (a1 < a2 →
      age_factor {v with vehicle_age := a1} <
        age_factor {v with vehicle_age := a2}) := by
  constructor
  · norm_num [age_factor]
  · intro h
    have h2 : a1 * 0.01 < a2 * 0.01 :=
      mul_lt_mul_of_pos_right h (by norm_num)
    simpa [age_factor] using h2

/-- Witness for C8 at ages 0, 3 and 7. -/
theorem C8_age_factor_monotone_witness :
    age_factor {(⟨"Car", "Petrol", 1500, 15, 50000, 5⟩ : VehicleEstimator) with
      vehicle_age := 0} = 1 ∧
    age_factor {(⟨"Car", "Petrol", 1500, 15, 50000, 5⟩ : VehicleEstimator) with
        vehicle_age := 3} <
      age_factor {(⟨"Car", "Petrol", 1500, 15, 50000, 5⟩ : VehicleEstimator) with
        vehicle_age := 7} :=
  ⟨(C8_age_factor_monotone ⟨"Car", "Petrol", 1500, 15, 50000, 5⟩ 3 7).1,
   (C8_age_factor_monotone ⟨"Car", "Petrol", 1500, 15, 50000, 5⟩ 3 7).2
     (by norm_num)⟩

/-- Claim C9: for a fuel type in the table and a strictly positive trip
distance, the trip result equals the lifetime result of the same profile with
`distance_traveled` replaced by the trip distance; the stored age factor is
shared. -/
theorem C9_trip_refines_lifetime (v : VehicleEstimator) (d fa factor : ℚ)
    (hf : emission_factors.lookup v.fuel_type = some factor) (hd : 0 < d) :
    calculate_next_trip_emissions v d fa =
      calculate_lifetime_emissions {v with distance_traveled := d} := by
  unfold calculate_next_trip_emissions calculate_lifetime_emissions age_factor
  simp [hf, hd]

/-- Witness for C9 at the Petrol example profile with trip distance 100. -/
theorem C9_trip_refines_lifetime_witness :
    calculate_next_trip_emissions ⟨"Car", "Petrol", 1500, 15, 50000, 5⟩ 100 10 =
      calculate_lifetime_emissions
        {(⟨"Car", "Petrol", 1500, 15, 50000, 5⟩ : VehicleEstimator) with
          distance_traveled := 100} :=
  C9_trip_refines_lifetime ⟨"Car", "Petrol", 1500, 15, 50000, 5⟩ 100 10 2.31
    (by simp [emission_factors, List.lookup]) (by norm_num)

/-- Claim C10: for every fuel type in the table except Electric and strictly
positive distance, fuel economy and age, the lifetime result is a strictly
positive numeric value. -/
theorem C10_positive_emissions (v : VehicleEstimator)
    (hft : v.fuel_type ∈ ["Petrol", "Diesel", "CNG", "Hybrid"])
    (hd : 0 < v.distance_traveled) (he : 0 < v.fuel_economy)
    (ha : 0 < v.vehicle_age) :
    ∃ q : ℚ, calculate_lifetime_emissions v = .value q ∧ 0 < q := by
  have haf : (0 : ℚ) < 1 + v.vehicle_age * 0.01 := by nlinarith
  have h1 : 0 < v.distance_traveled / v.fuel_economy := div_pos hd he
  simp only [List.mem_cons, List.not_mem_nil, or_false] at hft
  rcases hft with h | h | h | h
  · refine ⟨v.distance_traveled / v.fuel_economy * 2.31 *
      (1 + v.vehicle_age * 0.01), ?_, ?_⟩
    · simp [calculate_lifetime_emissions, emission_factors, pydiv, age_factor,
        List.lookup, h, he.ne']
    · exact mul_pos (mul_pos h1 (by norm_num)) haf
  · refine ⟨v.distance_traveled / v.fuel_economy * 2.68 *
      (1 + v.vehicle_age * 0.01), ?_, ?_⟩
    · simp [calculate_lifetime_emissions, emission_factors, pydiv, age_factor,
        List.lookup, h, he.ne']
    · exact mul_pos (mul_pos h1 (by norm_num)) haf
  · refine ⟨v.distance_traveled / v.fuel_economy * 2.75 *
      (1 + v.vehicle_age * 0.01), ?_, ?_⟩
    · simp [calculate_lifetime_emissions, emission_factors, pydiv, age_factor,
        List.lookup, h, he.ne']
    · exact mul_pos (mul_pos h1 (by norm_num)) haf
  · refine ⟨v.distance_traveled / v.fuel_economy * 1.5 *
      (1 + v.vehicle_age * 0.01), ?_, ?_⟩
    · simp [calculate_lifetime_emissions, emission_factors, pydiv, age_factor,
        List.lookup, h, he.ne']
    · exact mul_pos (mul_pos h1 (by norm_num)) haf

/-- Witness for C10 at the Petrol example profile. -/
theorem C10_positive_emissions_witness :
    ∃ q : ℚ,
      calculate_lifetime_emissions ⟨"Car", "Petrol", 1500, 15, 50000, 5⟩ =
        .value q ∧ 0 < q :=
  C10_positive_emissions ⟨"Car", "Petrol", 1500, 15, 50000, 5⟩ (by simp)
    (by norm_num) (by norm_num) (by norm_num)

end CarbonEmission
